import Mathlib

/-!
Shallow embedding of the self-mcp repository (server `self_mcp_server.py`,
client `slef_mcp_client.py`).  Pure string/list logic is translated directly;
network and HTML-parsing effects are abstracted as explicit parameters
(a `fetch : String → String` function for extracted page content, a
`Document` record for the parsed-HTML view a page presents to the
content-extraction routine, and `Option String` outcomes for the two
LLM backends).
-/

namespace SelfMcp

/-- `startsWith l p` holds when `p` is a leading segment of `l`. -/
def startsWith : List Char → List Char → Bool
  | _, [] => true
  | [], _ :: _ => false
  | c :: cs, p :: ps => c == p && startsWith cs ps

/-- Python `needle in hay` substring test. -/
def containsSubstr (hay needle : String) : Bool :=
  decide (needle.toList <:+: hay.toList)

/-- Python `str.lower()` (ASCII behaviour). -/
def pyLower (s : String) : String :=
  String.mk (s.toList.map Char.toLower)

/-- Replace every non-overlapping occurrence of `pat` by `rep`, scanning left
to right (Python `str.replace` for a non-empty pattern).  Structural
recursion on a fuel argument so that the kernel can evaluate it; each step
consumes one unit of fuel and at least one character, so `l.length` fuel is
always enough. -/
def replaceAux (pat rep : List Char) : Nat → List Char → List Char
  | 0, l => l
  | _ + 1, [] => []
  | fuel + 1, c :: cs =>
      if startsWith (c :: cs) pat && !pat.isEmpty then
        rep ++ replaceAux pat rep fuel (cs.drop (pat.length - 1))
      else
        c :: replaceAux pat rep fuel cs

/-- Python `str.replace(pat, rep)`. -/
def pyReplace (s pat rep : String) : String :=
  String.mk (replaceAux pat.toList rep.toList s.toList.length s.toList)

/-- Python `str.strip()`: drop leading and trailing whitespace. -/
def pyStrip (s : String) : String :=
  String.mk (((s.toList.dropWhile Char.isWhitespace).reverse.dropWhile
    Char.isWhitespace).reverse)

/-- Python `str.split(sep)` for a non-empty separator, accumulator- and
fuel-based (structural recursion so that the kernel can evaluate it). -/
def splitOnAux (sep : List Char) : Nat → List Char → List Char → List (List Char)
  | 0, l, acc => [(acc.reverse ++ l)]
  | _ + 1, [], acc => [acc.reverse]
  | fuel + 1, c :: cs, acc =>
      if startsWith (c :: cs) sep && !sep.isEmpty then
        acc.reverse :: splitOnAux sep fuel (cs.drop (sep.length - 1)) []
      else
        splitOnAux sep fuel cs (c :: acc)

/-- Python `str.split(sep)` on strings. -/
def pySplit (s sep : String) : List String :=
  (splitOnAux sep.toList s.toList.length s.toList []).map String.mk

/-- Python slicing `s[:n]` on a string (by code points). -/
def pyTake (n : Nat) (s : String) : String :=
  String.mk (s.toList.take n)

/-- Python `sep.join(parts)`. -/
def joinSep (sep : String) : List String → String
  | [] => ""
  | [x] => x
  | x :: y :: xs => x ++ sep ++ joinSep sep (y :: xs)

/-- Python `str.title()`: a cased character is uppercased when the previous
character is not alphabetic, lowercased otherwise (ASCII behaviour). -/
def pyTitleAux : Bool → List Char → List Char
  | _, [] => []
  | prevAlpha, c :: cs =>
      (if c.isAlpha then (if prevAlpha then c.toLower else c.toUpper) else c)
        :: pyTitleAux c.isAlpha cs

/-- Python `str.title()` on a string. -/
def pyTitle (s : String) : String :=
  String.mk (pyTitleAux false s.toList)

/-! ## Client: `slef_mcp_client.py` -/

/-- `HarisProfileClient._format_basic_response` (lines 142-150): the terminal
deterministic formatter, concatenating the raw context, the original query and
a static explanatory note. -/
def _format_basic_response (query context : String) : String :=
  "Based on the available information about Haris Gulzar:\n\n" ++ context ++
  "\n\nYour question: \"" ++ query ++
  "\"\n\nI've provided the relevant information above. For more detailed analysis, please consider setting up a local LLM (like Ollama) or using a cloud LLM service."

/-- `HarisProfileClient.query_llm_with_context` (lines 68-90).  The two model
backends are abstracted as their outcomes: `none` models an exception or a
non-200 response, `some s` models a successful response whose extracted answer
field is `s`.  Python truthiness (`if ollama_response:`) rejects both `None`
and the empty string. -/
def query_llm_with_context (ollamaResp hfResp : Option String) (q c : String) : String :=
  match ollamaResp with
  | some s =>
      if s.length ≠ 0 then s
      else
        match hfResp with
        | some t => if t.length ≠ 0 then t else _format_basic_response q c
        | none => _format_basic_response q c
  | none =>
      match hfResp with
      | some t => if t.length ≠ 0 then t else _format_basic_response q c
      | none => _format_basic_response q c

/-- The keyword-to-tool dispatch table of
`HarisProfileClient._determine_relevant_tools` (lines 212-218), in source
declaration order. -/
def tool_keywords : List (String × List String) :=
  [("get_profile_overview", ["overview", "about", "background", "who is", "introduction"]),
   ("get_experience", ["experience", "work", "job", "career", "professional", "employment"]),
   ("get_publications", ["publication", "paper", "research", "conference", "academic"]),
   ("get_career_timeline", ["timeline", "history", "when", "career path", "progression"]),
   ("get_social_links", ["social", "linkedin", "instagram", "facebook", "youtube", "contact"])]

/-- The tools whose keyword set has a substring match in the lowercased query
(lines 221-223). -/
def keyword_tools (query_lower : String) : List String :=
  (tool_keywords.filter fun tk => tk.2.any fun kw => containsSubstr query_lower kw).map Prod.fst

/-- Keyword-matched tools, defaulting to the fixed pair when nothing matched
(lines 226-227). -/
def base_tools (query_lower : String) : List String :=
  if (keyword_tools query_lower).isEmpty then ["get_profile_overview", "get_experience"]
  else keyword_tools query_lower

/-- The search-argument derivation of line 231:
`query.replace("search for", "").replace("find", "").replace("look for", "").strip()`.
Note the replacements act on the original (non-lowercased) query. -/
def stripped_query (query : String) : String :=
  pyStrip (pyReplace (pyReplace (pyReplace query "search for" "") "find" "") "look for" "")

/-- The residual as the spec's wording reads it — "stripping the
search-intent keywords" ("search" or "find") themselves from the original
query and trimming whitespace — as opposed to `stripped_query`, which is what
the code computes: the code strips the phrases "search for", "find" and
"look for", never the bare word "search". -/
def claim_stripped_query (query : String) : String :=
  pyStrip (pyReplace (pyReplace query "search" "") "find" "")

/-- The search-intent branch of lines 230-233: when the lowercased query
contains one of the search words and the stripped query is non-empty, the
search tool is inserted at the front. -/
def with_search (query : String) (tools : List String) : List String :=
  if (["find", "search", "look for", "about"].any fun w => containsSubstr (pyLower query) w) then
    if (stripped_query query).length = 0 then tools
    else "search_profile_content" :: tools
  else tools

/-- `HarisProfileClient._determine_relevant_tools` (lines 206-235). -/
def _determine_relevant_tools (query : String) : List String :=
  (with_search query (base_tools (pyLower query))).take 3

/-- The actions the interactive loop can take on one input line. -/
inductive ClientAction where
  | exitSession
  | showHelp
  | listTools
  | skip
  | answerQuery (q : String)
deriving DecidableEq

/-- The command-dispatch of `interactive_chat` (lines 162-182): the input is
stripped; `/quit`, `/exit`, `quit`, `exit` (case-insensitively) terminate,
`/help` and `/tools` are commands, an empty line is skipped, anything else is
treated as a natural-language query. -/
def classify_input (raw : String) : ClientAction :=
  if pyLower (pyStrip raw) ∈ (["/quit", "/exit", "quit", "exit"] : List String) then
    ClientAction.exitSession
  else if pyLower (pyStrip raw) = "/help" then ClientAction.showHelp
  else if pyLower (pyStrip raw) = "/tools" then ClientAction.listTools
  else if (pyStrip raw).length = 0 then ClientAction.skip
  else ClientAction.answerQuery (pyStrip raw)

/-! ## Server: `self_mcp_server.py` -/

/-- `HarisProfileServer.profile_urls` (lines 50-55), in insertion order. -/
def profile_urls : List (String × String) :=
  [("overview", "https://sites.google.com/view/haris-gulzar/home"),
   ("experience", "https://sites.google.com/view/haris-gulzar/experience"),
   ("publications", "https://sites.google.com/view/haris-gulzar/publications"),
   ("career_timeline", "https://sites.google.com/view/haris-gulzar/career-timeline")]

/-- `HarisProfileServer.social_urls` (lines 58-63), in insertion order. -/
def social_urls : List (String × String) :=
  [("linkedin", "https://www.linkedin.com/in/haris-gulzar/"),
   ("instagram", "https://www.instagram.com/japanviaharis/"),
   ("facebook", "https://www.facebook.com/mharisgulzar/"),
   ("youtube", "https://www.youtube.com/@japanviaharis")]

/-- The CSS-selector cascade of `_fetch_and_parse_content` (lines 244-249). -/
def selectors : List String :=
  ["div[data-dtype=\"d\"]", ".zfr3Q", ".uGdb3", "p", "h1", "h2", "h3", "li"]

/-- The parsed-HTML view of a successfully fetched page, as seen by
`_fetch_and_parse_content`: `select s` is the list of
`element.get_text(strip=True)` strings for the elements matched by selector
`s`, and `allText` is `soup.get_text(separator='\n', strip=True)`.  HTML
parsing itself is a library service and is not modelled. -/
structure Document where
  select : String → List String
  allText : String

/-- The fragment-collection loop of `_fetch_and_parse_content` (lines
251-258): the first selector that matches at least one element wins, and its
fragments are kept when truthy (non-empty) and longer than 10 characters. -/
def extract_content_parts (doc : Document) : List String :=
  match selectors.find? (fun s => !(doc.select s).isEmpty) with
  | some s => (doc.select s).filter fun t => decide (t.length ≠ 0) && decide (t.length > 10)
  | none => []

/-- `HarisProfileServer._fetch_and_parse_content` (lines 232-268).  The
network/parse outcome is abstracted as `Except String Document`: `.error e`
models an exception with message `e`, `.ok doc` a successfully fetched and
parsed page. -/
def _fetch_and_parse_content (url : String) (fetched : Except String Document) : String :=
  match fetched with
  | .error e => "Unable to fetch content from " ++ url ++ ". Error: " ++ e
  | .ok doc =>
      if !(extract_content_parts doc).isEmpty then
        joinSep "\n\n" ((extract_content_parts doc).take 20)
      else
        pyTake 2000 doc.allText

/-- `HarisProfileServer._get_social_links` (lines 310-323). -/
def _get_social_links (platform : String) : String :=
  if platform = "all" then
    social_urls.foldl
      (fun acc pu => acc ++ "• " ++ pyTitle pu.1 ++ ": " ++ pu.2 ++ "\n")
      "Social Media Profiles:\n\n"
  else
    match social_urls.lookup platform with
    | some url => pyTitle platform ++ ": " ++ url
    | none =>
        "Platform '" ++ platform ++ "' not found. Available platforms: " ++
        joinSep ", " (social_urls.map Prod.fst)

/-- The paragraph filter of `_search_profile_content` (lines 336-340):
blank-line-separated paragraphs that contain the lowercased query and whose
stripped length exceeds 20. -/
def _relevant_paragraphs (search_query content : String) : List String :=
  (pySplit content "\n\n").filter fun p =>
    containsSubstr (pyLower p) search_query && decide ((pyStrip p).length > 20)

/-- One entry of the `results` list built by `_search_profile_content`. -/
structure SearchResult where
  sectionTitle : String
  url : String
  matchList : List String
deriving DecidableEq

/-- The `results` accumulation of `_search_profile_content` (lines 327-347):
page content is `fetch url` (the outcome of `_fetch_and_parse_content` for
that url); a section enters the results when its content contains the
lowercased query and at least one paragraph survives the relevance filter. -/
def _search_results (fetch : String → String) (query : String) : List SearchResult :=
  profile_urls.filterMap fun su =>
    if containsSubstr (pyLower (fetch su.2)) (pyLower query) then
      if (_relevant_paragraphs (pyLower query) (fetch su.2)).isEmpty then none
      else some ⟨pyTitle su.1, su.2, (_relevant_paragraphs (pyLower query) (fetch su.2)).take 3⟩
    else none

/-- `HarisProfileServer._search_profile_content` (lines 325-361), final
formatting included. -/
def _search_profile_content (fetch : String → String) (query : String) : String :=
  if (_search_results fetch query).isEmpty then
    "No results found for '" ++ query ++ "' in the profile content."
  else
    (_search_results fetch query).foldl
      (fun acc r =>
        acc ++ "**" ++ r.sectionTitle ++ ":**\n" ++
        r.matchList.foldl (fun a m => a ++ "• " ++ pyTake 200 m ++ "...\n") "" ++
        "Source: " ++ r.url ++ "\n\n")
      ("Search results for '" ++ query ++ "':\n\n")

/-- Content-tool payloads (lines 270-308): each wraps the extracted content of
its configured url.  `fetch` abstracts `_fetch_and_parse_content`'s outcome
per url. -/
def _get_profile_overview (fetch : String → String) : String :=
  "Profile Overview:\n\n" ++ fetch "https://sites.google.com/view/haris-gulzar/home" ++
  "\n\nSource: https://sites.google.com/view/haris-gulzar/home"

/-- `_get_experience` (lines 280-288). -/
def _get_experience (fetch : String → String) : String :=
  "Work Experience:\n\n" ++ fetch "https://sites.google.com/view/haris-gulzar/experience" ++
  "\n\nSource: https://sites.google.com/view/haris-gulzar/experience"

/-- `_get_publications` (lines 290-298). -/
def _get_publications (fetch : String → String) : String :=
  "Publications and Conferences:\n\n" ++ fetch "https://sites.google.com/view/haris-gulzar/publications" ++
  "\n\nSource: https://sites.google.com/view/haris-gulzar/publications"

/-- `_get_career_timeline` (lines 300-308). -/
def _get_career_timeline (fetch : String → String) : String :=
  "Career Timeline:\n\n" ++ fetch "https://sites.google.com/view/haris-gulzar/career-timeline" ++
  "\n\nSource: https://sites.google.com/view/haris-gulzar/career-timeline"

/-- `handle_call_tool` (lines 203-230): dispatch on the tool name, with the
`try`/`except` boundary turning the two raised `ValueError`s into textual
`Error: ...` payloads.  Arguments are modelled as an optional association
list (`none` = Python `None`); Python's `if arguments` treats the empty dict
as falsy. -/
def handle_call_tool (fetch : String → String) (name : String)
    (arguments : Option (List (String × String))) : String :=
  if name = "get_profile_overview" then _get_profile_overview fetch
  else if name = "get_experience" then _get_experience fetch
  else if name = "get_publications" then _get_publications fetch
  else if name = "get_career_timeline" then _get_career_timeline fetch
  else if name = "get_social_links" then
    let platform :=
      match arguments with
      | none => "all"
      | some args => if args.isEmpty then "all" else (args.lookup "platform").getD "all"
    _get_social_links platform
  else if name = "search_profile_content" then
    match arguments with
    | some args =>
        (match args.lookup "query" with
         | some q => _search_profile_content fetch q
         | none => "Error: Query parameter is required for search")
    | none => "Error: Query parameter is required for search"
  else "Error: Unknown tool: " ++ name

/-- A capability invocation as issued by the interactive loop (client line
191: `await self.call_tool(tool_name)`), which through `call_tool`'s
`arguments or {}` default (line 53) always sends an empty arguments
mapping. -/
def loop_call_tool (fetch : String → String) (name : String) : String :=
  handle_call_tool fetch name (some [])

/-! ## Helper lemmas -/

theorem length_pyTake_le (n : Nat) (s : String) : (pyTake n s).length ≤ n := by
  show (s.toList.take n).length ≤ n
  rw [List.length_take]
  exact Nat.min_le_left _ _

theorem le_length_joinSep (sep x : String) (xs : List String) :
    x.length ≤ (joinSep sep (x :: xs)).length := by
  cases xs with
  | nil => simp [joinSep]
  | cons y ys => simp only [joinSep, String.length_append]; omega

theorem mem_extract_content_parts {doc : Document} {t : String}
    (h : t ∈ extract_content_parts doc) : 10 < t.length := by
  unfold extract_content_parts at h
  rcases hfind : selectors.find? (fun s => !(doc.select s).isEmpty) with _ | s <;>
    rw [hfind] at h
  · simp at h
  · rw [List.mem_filter] at h
    have := h.2
    simp only [Bool.and_eq_true, decide_eq_true_eq] at this
    exact this.2

theorem format_basic_response_length_pos (q c : String) :
    0 < (_format_basic_response q c).length := by
  have h1 : 0 < ("Based on the available information about Haris Gulzar:\n\n" : String).length := by
    decide
  simp only [_format_basic_response, String.length_append]
  omega

theorem base_tools_ne_nil (ql : String) : base_tools ql ≠ [] := by
  unfold base_tools
  split
  · simp
  · next h =>
      simp only [Bool.not_eq_true, List.isEmpty_eq_false] at h
      exact h

theorem with_search_ne_nil (q : String) {tools : List String} (h : tools ≠ []) :
    with_search q tools ≠ [] := by
  unfold with_search
  split
  · split
    · exact h
    · simp
  · exact h

theorem mem_base_tools {ql x : String} (h : x ∈ base_tools ql) :
    x ∈ (["get_profile_overview", "get_experience", "get_publications",
          "get_career_timeline", "get_social_links"] : List String) := by
  unfold base_tools at h
  split at h
  · rcases List.mem_cons.mp h with h1 | h1
    · subst h1; decide
    · rcases List.mem_cons.mp h1 with h2 | h2
      · subst h2; decide
      · simp at h2
  · unfold keyword_tools at h
    rcases List.mem_map.mp h with ⟨tk, htk, hx⟩
    have htk' := (List.mem_filter.mp htk).1
    subst hx
    simp only [tool_keywords, List.mem_cons, List.not_mem_nil, or_false] at htk'
    rcases htk' with h1 | h1 | h1 | h1 | h1 <;> subst h1 <;> decide

/-! ## Claim theorems -/

/-- C1: for every query, every context, and every outcome of the two model
backends (including both being unreachable or failing), the answer-generation
routine returns a non-empty answer; when both backends fail it returns exactly
the deterministic formatter's output, which concatenates the raw context, the
original query and a static explanatory note. -/
theorem query_llm_with_context_total (o h : Option String) (q c : String) :
    0 < (query_llm_with_context o h q c).length ∧
    query_llm_with_context none none q c = _format_basic_response q c ∧
    _format_basic_response q c =
      "Based on the available information about Haris Gulzar:\n\n" ++ c ++
      "\n\nYour question: \"" ++ q ++
      "\"\n\nI've provided the relevant information above. For more detailed analysis, please consider setting up a local LLM (like Ollama) or using a cloud LLM service." := by
  refine ⟨?_, rfl, rfl⟩
  cases o with
  | none =>
      cases h with
      | none => simpa [query_llm_with_context] using format_basic_response_length_pos q c
      | some t =>
          by_cases ht : t.length ≠ 0
          · simpa [query_llm_with_context, ht] using Nat.pos_of_ne_zero ht
          · simpa [query_llm_with_context, ht] using format_basic_response_length_pos q c
  | some s =>
      by_cases hs : s.length ≠ 0
      · simpa [query_llm_with_context, hs] using Nat.pos_of_ne_zero hs
      · cases h with
        | none => simpa [query_llm_with_context, hs] using format_basic_response_length_pos q c
        | some t =>
            by_cases ht : t.length ≠ 0
            · simpa [query_llm_with_context, hs, ht] using Nat.pos_of_ne_zero ht
            · simpa [query_llm_with_context, hs, ht] using format_basic_response_length_pos q c

/-- C2: the relevance ranking always selects between 1 and 3 tools; when no
tool keyword matches, the base list is the fixed default pair, and when
additionally no search-intent keyword occurs in the query, the final
selection is exactly that pair. -/
theorem determine_relevant_tools_card (q : String) :
    1 ≤ (_determine_relevant_tools q).length ∧
    (_determine_relevant_tools q).length ≤ 3 ∧
    ((keyword_tools (pyLower q)).isEmpty = true →
      base_tools (pyLower q) = ["get_profile_overview", "get_experience"]) ∧
    ((keyword_tools (pyLower q)).isEmpty = true →
      (["find", "search", "look for", "about"].any fun w =>
        containsSubstr (pyLower q) w) = false →
      _determine_relevant_tools q = ["get_profile_overview", "get_experience"]) := by
  refine ⟨?_, ?_, ?_, ?_⟩
  · have hne : with_search q (base_tools (pyLower q)) ≠ [] :=
      with_search_ne_nil q (base_tools_ne_nil _)
    unfold _determine_relevant_tools
    rw [List.length_take]
    exact Nat.le_min.mpr ⟨by omega, List.length_pos.mpr hne⟩
  · unfold _determine_relevant_tools
    rw [List.length_take]
    exact Nat.min_le_left _ _
  · intro hk
    simp [base_tools, hk]
  · intro hk hs
    unfold _determine_relevant_tools with_search
    rw [hs]
    simp [base_tools, hk]

/-- Witness for C2 at a query matching no keyword at all. -/
theorem determine_relevant_tools_card_witness :
    _determine_relevant_tools "weather tomorrow" =
      ["get_profile_overview", "get_experience"] :=
  (determine_relevant_tools_card "weather tomorrow").2.2.2 (by decide) (by decide)

/-- C3 counterexample: the claim's residual (stripping the search-intent
keywords "search"/"find" themselves) diverges from the code's residual in
both directions.  At query "search" the claim-residual is empty, yet the
ranking places the search tool first; at query "find look for" (which
contains "find") the claim-residual "look for" is non-empty, yet the ranking
does not select the search tool at all. -/
theorem search_residual_divergence :
    (containsSubstr (pyLower "search") "search" = true ∧
     claim_stripped_query "search" = "" ∧
     (_determine_relevant_tools "search").head? = some "search_profile_content") ∧
    (containsSubstr (pyLower "find look for") "find" = true ∧
     claim_stripped_query "find look for" = "look for" ∧
     "search_profile_content" ∉ _determine_relevant_tools "find look for") :=
  ⟨⟨by decide, by decide, by decide⟩, ⟨by decide, by decide, by decide⟩⟩

/-- C3 (amended): for a query containing the search-intent keyword "search"
or "find", with the residual derived as the code derives it (removing the
phrases "search for", "find" and "look for" from the original query, then
trimming), the search tool is placed first in the selection when that
residual is non-empty, and is not selected at all when it is empty. -/
theorem search_tool_placement (q : String)
    (hkw : containsSubstr (pyLower q) "search" = true ∨
           containsSubstr (pyLower q) "find" = true) :
    ((stripped_query q).length ≠ 0 →
      (_determine_relevant_tools q).head? = some "search_profile_content") ∧
    ((stripped_query q).length = 0 →
      "search_profile_content" ∉ _determine_relevant_tools q) := by
  have hany : (["find", "search", "look for", "about"].any fun w =>
      containsSubstr (pyLower q) w) = true := by
    rcases hkw with h | h
    · exact List.any_eq_true.mpr ⟨"search", by decide, h⟩
    · exact List.any_eq_true.mpr ⟨"find", by decide, h⟩
  constructor
  · intro hne
    unfold _determine_relevant_tools with_search
    rw [if_pos hany, if_neg hne]
    rfl
  · intro h0
    unfold _determine_relevant_tools with_search
    rw [if_pos hany, if_pos h0]
    intro hmem
    have hx := mem_base_tools ((List.take_sublist 3 _).subset hmem)
    exact absurd hx (by decide)

/-- Witness for C3: "find internships" puts the search tool first;
bare "find" strips to the empty residual and adds no search tool. -/
theorem search_tool_placement_witness :
    (_determine_relevant_tools "find internships").head? =
      some "search_profile_content" ∧
    "search_profile_content" ∉ _determine_relevant_tools "find" :=
  ⟨(search_tool_placement "find internships" (Or.inr (by decide))).1 (by decide),
   (search_tool_placement "find" (Or.inr (by decide))).2 (by decide)⟩

/-- C4: the interactive loop invokes every tool with an empty arguments
mapping, so its invocation of the search tool always returns the server's
textual error demanding the query parameter, never search results. -/
theorem loop_search_yields_error (fetch : String → String) :
    loop_call_tool fetch "search_profile_content" =
      "Error: Query parameter is required for search" := rfl

/-- C9: dispatching an invocation whose name is outside the fixed six-tool
catalog returns the textual error payload naming the unknown tool. -/
theorem unknown_tool_textual_error (fetch : String → String) (name : String)
    (args : Option (List (String × String)))
    (h : name ∉ (["get_profile_overview", "get_experience", "get_publications",
        "get_career_timeline", "get_social_links",
        "search_profile_content"] : List String)) :
    handle_call_tool fetch name args = "Error: Unknown tool: " ++ name := by
  simp only [List.mem_cons, List.not_mem_nil, or_false, not_or] at h
  obtain ⟨h1, h2, h3, h4, h5, h6⟩ := h
  simp [handle_call_tool, h1, h2, h3, h4, h5, h6]

/-- Witness for C9 at a concrete unknown tool name. -/
theorem unknown_tool_textual_error_witness :
    handle_call_tool (fun _ => "") "bogus_tool" none =
      "Error: Unknown tool: bogus_tool" :=
  unknown_tool_textual_error (fun _ => "") "bogus_tool" none (by decide)

/-- C5 counterexample: with every source extracting to "short match x" and
query "x", a source's text contains the lowercased query, yet the result set
is empty and only the no-results message is produced — the paragraph-level
filter (stripped length > 20) excludes the matching source. -/
theorem search_omits_matching_source :
    ("overview", "https://sites.google.com/view/haris-gulzar/home") ∈ profile_urls ∧
    containsSubstr (pyLower "short match x") (pyLower "x") = true ∧
    _search_results (fun _ => "short match x") "x" = [] ∧
    _search_profile_content (fun _ => "short match x") "x" =
      "No results found for 'x' in the profile content." :=
  ⟨by decide, by decide, by decide, by decide⟩

/-- C5 (amended): a source appears in the result set whenever its extracted
text contains the lowercased query AND at least one blank-line-separated
paragraph both contains the query and is longer than 20 characters after
stripping; whenever the result set is empty (in particular when no source's
text contains the query) the output is exactly the deterministic no-results
message. -/
theorem search_results_spec (fetch : String → String) (query sn url : String) :
    ((sn, url) ∈ profile_urls →
      containsSubstr (pyLower (fetch url)) (pyLower query) = true →
      (_relevant_paragraphs (pyLower query) (fetch url)).isEmpty = false →
      ∃ r ∈ _search_results fetch query, r.url = url) ∧
    ((_search_results fetch query).isEmpty = true →
      _search_profile_content fetch query =
        "No results found for '" ++ query ++ "' in the profile content.") := by
  constructor
  · intro hmem hc hrel
    refine ⟨⟨pyTitle sn, url,
      (_relevant_paragraphs (pyLower query) (fetch url)).take 3⟩, ?_, rfl⟩
    unfold _search_results
    refine List.mem_filterMap.mpr ⟨(sn, url), hmem, ?_⟩
    simp [hc, hrel]
  · intro h0
    unfold _search_profile_content
    rw [if_pos h0]

/-- Witness for C5 (amended): a long matching paragraph is reported, and an
unmatched query yields the deterministic no-results message. -/
theorem search_results_spec_witness :
    (∃ r ∈ _search_results
        (fun _ => "this long paragraph mentions deep learning research in detail")
        "deep learning",
      r.url = "https://sites.google.com/view/haris-gulzar/home") ∧
    _search_profile_content
        (fun _ => "this long paragraph mentions deep learning research in detail")
        "zzzz" =
      "No results found for 'zzzz' in the profile content." :=
  ⟨(search_results_spec
      (fun _ => "this long paragraph mentions deep learning research in detail")
      "deep learning" "overview"
      "https://sites.google.com/view/haris-gulzar/home").1
      (by decide) (by decide) (by decide),
   (search_results_spec
      (fun _ => "this long paragraph mentions deep learning research in detail")
      "zzzz" "" "").2 (by decide)⟩

/-- C6 counterexample: a fetched document where no selector yields a fragment
longer than 10 characters and whose full text is empty makes the extraction
routine return the empty string. -/
theorem fetch_and_parse_empty_output :
    _fetch_and_parse_content "https://sites.google.com/view/haris-gulzar/home"
      (Except.ok ⟨fun _ => [], ""⟩) = "" := rfl

/-- C6 (amended): the extraction routine never exceeds its truncation bound —
the output is the first at-most-20 surviving fragments joined by blank lines
when the selector path wins (and is then non-empty), and is at most 2000
characters under the all-text fallback — and the recovered error path is
non-empty; but the fallback output is the (possibly empty) truncated full
text, so the routine can return the empty string for a text-free document. -/
theorem fetch_and_parse_bounds (url e : String) (doc : Document) :
    ((extract_content_parts doc).isEmpty = true →
      _fetch_and_parse_content url (Except.ok doc) = pyTake 2000 doc.allText ∧
      (_fetch_and_parse_content url (Except.ok doc)).length ≤ 2000) ∧
    ((extract_content_parts doc).isEmpty = false →
      _fetch_and_parse_content url (Except.ok doc) =
        joinSep "\n\n" ((extract_content_parts doc).take 20) ∧
      ((extract_content_parts doc).take 20).length ≤ 20 ∧
      0 < (_fetch_and_parse_content url (Except.ok doc)).length) ∧
    0 < (_fetch_and_parse_content url (Except.error e)).length := by
  refine ⟨?_, ?_, ?_⟩
  · intro h
    have heq : _fetch_and_parse_content url (Except.ok doc) = pyTake 2000 doc.allText := by
      simp [_fetch_and_parse_content, h]
    exact ⟨heq, heq ▸ length_pyTake_le 2000 doc.allText⟩
  · intro h
    have heq : _fetch_and_parse_content url (Except.ok doc) =
        joinSep "\n\n" ((extract_content_parts doc).take 20) := by
      simp [_fetch_and_parse_content, h]
    refine ⟨heq, ?_, ?_⟩
    · rw [List.length_take]; exact Nat.min_le_left _ _
    · rw [heq]
      obtain ⟨p, ps, hps⟩ : ∃ p ps, extract_content_parts doc = p :: ps := by
        cases hx : extract_content_parts doc with
        | nil => rw [hx] at h; simp at h
        | cons a as => exact ⟨a, as, rfl⟩
      have hlen : 10 < p.length :=
        mem_extract_content_parts (by rw [hps]; exact List.mem_cons_self _ _)
      rw [hps]
      have h20 : (p :: ps).take 20 = p :: ps.take 19 := rfl
      rw [h20]
      have := le_length_joinSep "\n\n" p (ps.take 19)
      omega
  · unfold _fetch_and_parse_content
    simp only [String.length_append]
    have : 0 < ("Unable to fetch content from " : String).length := by decide
    omega

/-- Witness for C6 (amended) at a document whose first selector yields two
long fragments. -/
theorem fetch_and_parse_bounds_witness :
    _fetch_and_parse_content "u"
      (Except.ok ⟨fun _ => ["first long fragment", "second long fragment"], "fb"⟩) =
      joinSep "\n\n" ((extract_content_parts
        ⟨fun _ => ["first long fragment", "second long fragment"], "fb"⟩).take 20) ∧
    _fetch_and_parse_content "u" (Except.ok ⟨fun _ => ["tiny"], "fallback text"⟩) =
      pyTake 2000 ("fallback text" : String) :=
  ⟨((fetch_and_parse_bounds "u" ""
      ⟨fun _ => ["first long fragment", "second long fragment"], "fb"⟩).2.1
      (by decide)).1,
   ((fetch_and_parse_bounds "u" "" ⟨fun _ => ["tiny"], "fallback text"⟩).1
      (by decide)).1⟩

/-- C7 counterexample: a fragment of exactly 10 characters from the winning
selector's matched elements is discarded — the noise filter keeps only
fragments strictly longer than 10 characters. -/
theorem ten_char_fragment_discarded :
    ("aaaaaaaaaa" : String).length = 10 ∧
    selectors.find? (fun sel =>
        !((Document.mk (fun _ => ["aaaaaaaaaa"]) "fb").select sel).isEmpty) =
      some "div[data-dtype=\"d\"]" ∧
    extract_content_parts (Document.mk (fun _ => ["aaaaaaaaaa"]) "fb") = [] :=
  ⟨by decide, by decide, rfl⟩

/-- C7 (amended): a candidate fragment from the winning selector is kept
exactly when it is strictly longer than 10 characters (so fragments of length
10 or less, the empty fragment included, are discarded). -/
theorem extract_keeps_iff (doc : Document) (s t : String)
    (hsel : selectors.find? (fun sel => !(doc.select sel).isEmpty) = some s) :
    t ∈ extract_content_parts doc ↔ t ∈ doc.select s ∧ 10 < t.length := by
  unfold extract_content_parts
  rw [hsel, List.mem_filter]
  constructor
  · rintro ⟨h1, h2⟩
    simp only [Bool.and_eq_true, decide_eq_true_eq] at h2
    exact ⟨h1, h2.2⟩
  · rintro ⟨h1, h2⟩
    refine ⟨h1, ?_⟩
    simp only [Bool.and_eq_true, decide_eq_true_eq]
    exact ⟨by omega, h2⟩

/-- Witness for C7 (amended): a 28-character fragment from the winning
selector is kept. -/
theorem extract_keeps_iff_witness :
    "this fragment is long enough" ∈ extract_content_parts
      (Document.mk (fun sel => if sel = "p" then ["this fragment is long enough"] else [])
        "fb") :=
  (extract_keeps_iff
    (Document.mk (fun sel => if sel = "p" then ["this fragment is long enough"] else []) "fb")
    "p" "this fragment is long enough" (by decide)).mpr ⟨by decide, by decide⟩

/-- C8 counterexample: the link-lookup result for platform "linkedin" is the
title-labelled string, not exactly the configured URL string. -/
theorem social_links_linkedin_labelled :
    _get_social_links "linkedin" = "Linkedin: https://www.linkedin.com/in/haris-gulzar/" ∧
    (_get_social_links "linkedin" == "https://www.linkedin.com/in/haris-gulzar/") = false :=
  ⟨by decide, by decide⟩

/-- C8 (amended): platform "linkedin" returns the platform title followed by
exactly the configured LinkedIn URL; an unrecognized platform returns an
error-style message listing the valid platforms; an omitted platform argument
behaves identically to platform "all". -/
theorem social_links_spec (fetch : String → String) :
    _get_social_links "linkedin" = "Linkedin: https://www.linkedin.com/in/haris-gulzar/" ∧
    _get_social_links "unknown_xyz" =
      "Platform 'unknown_xyz' not found. Available platforms: linkedin, instagram, facebook, youtube" ∧
    handle_call_tool fetch "get_social_links" none =
      handle_call_tool fetch "get_social_links" (some [("platform", "all")]) :=
  ⟨by decide, by decide, rfl⟩

/-- C10 counterexample: the bare word "quit" — a non-empty input that is none
of the four slash commands — terminates the session instead of being treated
as a natural-language query. -/
theorem bare_quit_terminates :
    classify_input "quit" = ClientAction.exitSession ∧
    ("quit" : String) ∉ (["/tools", "/help", "/quit", "/exit"] : List String) ∧
    ("quit" : String).length ≠ 0 :=
  ⟨by decide, by decide, by decide⟩

/-- C10 (amended): after stripping and lowercasing, exactly `/quit`, `/exit`,
`quit` and `exit` terminate the session, `/help` shows usage, `/tools` lists
capabilities, and every other non-empty input is treated as a
natural-language query. -/
theorem classify_input_spec (raw : String) :
    (classify_input raw = ClientAction.answerQuery (pyStrip raw) ↔
      (pyStrip raw).length ≠ 0 ∧
      pyLower (pyStrip raw) ∉
        (["/quit", "/exit", "quit", "exit", "/help", "/tools"] : List String)) ∧
    (classify_input raw = ClientAction.exitSession ↔
      pyLower (pyStrip raw) ∈ (["/quit", "/exit", "quit", "exit"] : List String)) ∧
    (classify_input raw = ClientAction.showHelp ↔ pyLower (pyStrip raw) = "/help") ∧
    (classify_input raw = ClientAction.listTools ↔ pyLower (pyStrip raw) = "/tools") := by
  by_cases h1 : pyLower (pyStrip raw) ∈ (["/quit", "/exit", "quit", "exit"] : List String)
  · have hc : classify_input raw = ClientAction.exitSession := by
      unfold classify_input; rw [if_pos h1]
    have h6 : pyLower (pyStrip raw) ∈
        (["/quit", "/exit", "quit", "exit", "/help", "/tools"] : List String) := by
      simp only [List.mem_cons, List.not_mem_nil, or_false] at h1 ⊢
      tauto
    have hh : pyLower (pyStrip raw) ≠ "/help" := by
      intro he; rw [he] at h1; exact absurd h1 (by decide)
    have ht : pyLower (pyStrip raw) ≠ "/tools" := by
      intro he; rw [he] at h1; exact absurd h1 (by decide)
    rw [hc]
    exact ⟨by simp [h6], by simp [h1], by simp [hh], by simp [ht]⟩
  · by_cases h2 : pyLower (pyStrip raw) = "/help"
    · have hc : classify_input raw = ClientAction.showHelp := by
        unfold classify_input; rw [if_neg h1, if_pos h2]
      rw [hc]
      exact ⟨by simp [h2], by simp [h2], by simp [h2], by simp [h2]⟩
    · by_cases h3 : pyLower (pyStrip raw) = "/tools"
      · have hc : classify_input raw = ClientAction.listTools := by
          unfold classify_input; rw [if_neg h1, if_neg h2, if_pos h3]
        rw [hc]
        exact ⟨by simp [h3], by simp [h3], by simp [h3], by simp [h3]⟩
      · by_cases h4 : (pyStrip raw).length = 0
        · have hc : classify_input raw = ClientAction.skip := by
            unfold classify_input; rw [if_neg h1, if_neg h2, if_neg h3, if_pos h4]
          rw [hc]
          exact ⟨by simp [h4], by simp [h1], by simp [h2], by simp [h3]⟩
        · have hc : classify_input raw = ClientAction.answerQuery (pyStrip raw) := by
            unfold classify_input; rw [if_neg h1, if_neg h2, if_neg h3, if_neg h4]
          rw [hc]
          refine ⟨?_, by simp [h1], by simp [h2], by simp [h3]⟩
          constructor
          · intro _
            refine ⟨h4, ?_⟩
            simp only [List.mem_cons, List.not_mem_nil, or_false, not_or] at h1 ⊢
            exact ⟨h1.1, h1.2.1, h1.2.2.1, h1.2.2.2, h2, h3⟩
          · intro _
            rfl

/-- Witness for C10 (amended): a padded greeting is stripped and answered as
a query. -/
theorem classify_input_spec_witness :
    classify_input "  Hello there  " = ClientAction.answerQuery (pyStrip "  Hello there  ") :=
  (classify_input_spec "  Hello there  ").1.mpr ⟨by decide, by decide⟩

end SelfMcp
